import Mathlib

/-!
Verification of the selfie-light overlay program (`light.pyw`) against its
natural-language specification.

Shallow embedding conventions:
* Python machine integers are `ℤ`; Python float arithmetic is modelled exactly,
  as `ℚ` where the source only adds/multiplies decimal literals and as `ℝ`
  where the source calls `math.log`, `math.sqrt` or fractional `**`
  (IEEE-754 rounding of intermediate results is not modelled).
* Python `int(x)` truncates toward zero; it is modelled by `pyint` (on `ℝ`)
  and `pyintQ` (on `ℚ`).
* A `"#rrggbb"` hex colour string is modelled as its channel triple `Rgb`:
  the two-hex-digit encoding is a bijection from `[0,255]³` onto such strings,
  and every colour the program builds is clamped into that range.
* The Windows registry is modelled as an association list of
  (value name, stored string) pairs; `winreg` reads and writes never fail in
  the model (the source wraps them in try/except and the claims under test
  concern the missing-key / uncoercible-value paths, which are modelled).
* Tk windows: a `Surface` records the geometry, role tag and current fill of
  one toplevel window.  `winfo_width`/`winfo_height` immediately after a
  `geometry(...)` call are modelled as returning the requested size
  (synchronous semantics of the single-threaded event loop).
-/

/-- Python `int(x)` for a real `x`: truncation toward zero. -/
noncomputable def pyint (x : ℝ) : ℤ := if 0 ≤ x then ⌊x⌋ else ⌈x⌉

/-- Python `int(x)` for an exactly-represented float `x : ℚ`:
truncation toward zero. -/
def pyintQ (x : ℚ) : ℤ := if 0 ≤ x then ⌊x⌋ else ⌈x⌉

/-- Model of `int(max(0, min(255, v)))` — the channel clamp used by `kelvin_to_rgb`
(`light.pyw` lines 50-54). -/
noncomputable def clamp255 (v : ℝ) : ℤ := pyint (max 0 (min 255 v))

/-- An RGB channel triple; stands for the `"#rrggbb"` string of the source. -/
structure Rgb where
  r : ℤ
  g : ℤ
  b : ℤ
deriving DecidableEq, Repr

/-- Red channel of `kelvin_to_rgb` before clamping (`light.pyw` lines 36-40):
255 when `temp <= 66`, else `329.698727446 * (temp - 60) ** -0.1332047592`. -/
noncomputable def kelvin_red_raw (temp : ℝ) : ℝ :=
  if temp ≤ 66 then 255
  else 329.698727446 * (temp - 60) ^ (-0.1332047592 : ℝ)

/-- Green channel of `kelvin_to_rgb` before clamping (`light.pyw` lines 36-41). -/
noncomputable def kelvin_green_raw (temp : ℝ) : ℝ :=
  if temp ≤ 66 then 99.4708025861 * Real.log temp - 161.1195681661
  else 288.1221695283 * (temp - 60) ^ (-0.0755148492 : ℝ)

/-- Blue channel of `kelvin_to_rgb` before clamping (`light.pyw` lines 43-48). -/
noncomputable def kelvin_blue_raw (temp : ℝ) : ℝ :=
  if 66 ≤ temp then 255
  else if temp ≤ 19 then 0
  else 138.5177312231 * Real.log (temp - 10) - 305.0447927307

/-- Model of `kelvin_to_rgb(temp_k)` (`light.pyw` lines 32-54): scale the temperature,
evaluate the piecewise Planckian fit per channel, clamp each channel to
`[0,255]` and truncate to an integer.  The final f-string hex encoding is
modelled as the `Rgb` triple itself. -/
noncomputable def kelvin_to_rgb (temp_k : ℤ) : Rgb :=
  let temp : ℝ := (temp_k : ℝ) / 100
  ⟨clamp255 (kelvin_red_raw temp),
   clamp255 (kelvin_green_raw temp),
   clamp255 (kelvin_blue_raw temp)⟩

/-- Model of `adjust_brightness(hex_color, factor)` (`light.pyw` lines 56-61): each
channel is multiplied by the factor, truncated by `int(...)` and clamped by
`max(0, min(255, ...))`.  The hex parse/format pair is modelled by working on
the `Rgb` triple directly. -/
def adjust_brightness (c : Rgb) (factor : ℚ) : Rgb :=
  ⟨max 0 (min 255 (pyintQ ((c.r : ℚ) * factor))),
   max 0 (min 255 (pyintQ ((c.g : ℚ) * factor))),
   max 0 (min 255 (pyintQ ((c.b : ℚ) * factor)))⟩

/-! (Theorems are collected at the end of the file, after all definitions.) -/

/-! ## Settings store (`save_setting` / `load_setting`, `light.pyw` lines 63-80)

The Windows registry key `Software\SelfieLightApp` holds string values; it is
modelled as an association list from value names to stored strings. -/

/-- Numeric value of a digit list (most significant first), used by the
models of Python's `int(...)` and `float(...)` string conversions. -/
def digits_val (l : List Char) : ℕ :=
  l.foldl (fun a c => 10 * a + (c.toNat - 48)) 0

/-- Digit-list parse: fails unless the list is non-empty and all digits. -/
def digits_to_nat (l : List Char) : Option ℕ :=
  if l ≠ [] ∧ l.all (·.isDigit) then some (digits_val l) else none

/-- Strip leading and trailing whitespace, as Python's numeric string
conversions do before parsing. -/
def strip_ws (l : List Char) : List Char :=
  ((l.dropWhile (·.isWhitespace)).reverse.dropWhile (·.isWhitespace)).reverse

/-- Model of Python's `int(s)` conversion of a string (as in
`type(default)(val)` when the default is an `int`): optional sign followed by
decimal digits; anything else (e.g. `"abc"`, `"1.0"`) raises, modelled as
`none`.  Underscore separators and non-decimal forms are not modelled. -/
def py_to_int (s : String) : Option ℤ :=
  match strip_ws s.toList with
  | '-' :: r => (digits_to_nat r).map (fun n => -(n : ℤ))
  | '+' :: r => (digits_to_nat r).map (fun n => (n : ℤ))
  | l => (digits_to_nat l).map (fun n => (n : ℤ))

/-- Model of Python's `float(s)` conversion (as in `type(default)(val)` when
the default is a `float`): optional sign, then decimal digits with an
optional single decimal point; the value is exact in `ℚ`.  Exponent,
`inf`/`nan` and underscore forms are not modelled. -/
def py_to_rat (s : String) : Option ℚ :=
  let body : List Char → Option ℚ := fun l =>
    match l.splitOn '.' with
    | [ip] => if ip ≠ [] ∧ ip.all (·.isDigit) then some ((digits_val ip : ℚ)) else none
    | [ip, fp] =>
        if (ip ≠ [] ∨ fp ≠ []) ∧ ip.all (·.isDigit) ∧ fp.all (·.isDigit) then
          some ((digits_val ip : ℚ) + (digits_val fp : ℚ) / (10 : ℚ) ^ fp.length)
        else none
    | _ => none
  match strip_ws s.toList with
  | '-' :: r => (body r).map (fun q => -q)
  | '+' :: r => body r
  | l => body l

/-- A Python scalar as stored in / loaded from the settings: the three
default types the program uses (`int`, `float`, `str`). -/
inductive PyVal where
  | int (n : ℤ)
  | float (q : ℚ)
  | str (s : String)
deriving DecidableEq, Repr

/-- Model of `type(default)(val)` — coerce the registry string to the type of the
typed default; `none` models the conversion raising. -/
def coerce_to : PyVal → String → Option PyVal
  | .int _, s => (py_to_int s).map .int
  | .float _, s => (py_to_rat s).map .float
  | .str _, s => some (.str s)

/-- Model of `winreg.QueryValueEx` under the app's key: look the value name up in the
stored association list; `none` models the missing-value exception. -/
def reg_lookup (store : List (String × String)) (name : String) : Option String :=
  (store.find? (fun p => p.1 == name)).map (·.2)

/-- Model of `save_setting(name, value)` (`light.pyw` lines 63-70): write `str(value)`
under `name`, overwriting any existing entry (the model's registry write
always succeeds). -/
def save_setting : List (String × String) → String → String → List (String × String)
  | [], n, v => [(n, v)]
  | (k, w) :: r, n, v => if k = n then (n, v) :: r else (k, w) :: save_setting r n v

/-- Model of `load_setting(name, default)` (`light.pyw` lines 72-80): read the stored
string and cast it to the default's type; on a missing value or a failed
cast the typed default is returned unchanged. -/
def load_setting (store : List (String × String)) (name : String) (default : PyVal) :
    PyVal :=
  match reg_lookup store name with
  | none => default
  | some s => (coerce_to default s).getD default

/-- Model of `load_setting` at an `int` default, as used for `ColorTemp`,
`BorderWidth`, `RingSize`, `RingX` and `RingY`. -/
def load_int (store : List (String × String)) (name : String) (d : ℤ) : ℤ :=
  match reg_lookup store name with
  | none => d
  | some s => (py_to_int s).getD d

/-- Model of `load_setting` at a `float` default, as used for `Brightness`. -/
def load_rat (store : List (String × String)) (name : String) (d : ℚ) : ℚ :=
  match reg_lookup store name with
  | none => d
  | some s => (py_to_rat s).getD d

/-- Model of `load_setting` at a `str` default, as used for `BarStyle` (`str(val)`
never raises). -/
def load_str (store : List (String × String)) (name : String) (d : String) : String :=
  match reg_lookup store name with
  | none => d
  | some _ => (reg_lookup store name).getD d

/-! ## Surfaces (`LightBar`, `light.pyw` lines 84-184; `RingLight`, 186-313)

A `Surface` is one borderless toplevel window: either a rectangular
`LightBar` (position, size, role tag, current `bg` fill — `none` before the
first `set_color`) or a circular `RingLight` (position, diameter, current
`light_color`, initially `"#ffffff"`). -/

inductive Surface where
  | bar (x y w h : ℤ) (role : String) (color : Option Rgb)
  | ring (x y size : ℤ) (lightColor : Rgb)
deriving DecidableEq

/-- Model of `set_color` (`light.pyw` lines 180-181 and 291-293): replace the bar's
`bg` fill, or the ring's `light_color` (the ring is then redrawn). -/
def Surface.set_color (s : Surface) (c : Rgb) : Surface :=
  match s with
  | .bar x y w h role _ => .bar x y w h role (some c)
  | .ring x y size _ => .ring x y size c

/-- The colour a surface currently shows: a bar's `bg` fill, or the colour
of the ring's drawn shape. -/
def Surface.displayed_color : Surface → Option Rgb
  | .bar _ _ _ _ _ c => c
  | .ring _ _ _ lc => some lc

/-! ## Controller (`light.pyw` lines 315-432) -/

/-- The controller's mutable state, plus the modelled registry (`store`).
`workX`/`workY`/`workW`/`workH` are the work-area rectangle obtained once at
startup. -/
structure Controller where
  workX : ℤ
  workY : ℤ
  workW : ℤ
  workH : ℤ
  bars : List Surface
  colorTemp : ℤ
  brightness : ℚ
  style : String
  borderWidth : ℤ
  store : List (String × String)
deriving DecidableEq

/-- Model of `close_bars` (`light.pyw` lines 425-428): destroy every active surface
and empty the active set (window-level destroy semantics are modelled
separately for the close-all claim). -/
def close_bars (c : Controller) : Controller := { c with bars := [] }

/-- Model of `update_colors` (`light.pyw` lines 376-380): recompute the colour from
the committed temperature/brightness pair and push it to every active
surface. -/
noncomputable def update_colors (c : Controller) : Controller :=
  { c with bars :=
      c.bars.map fun b =>
        b.set_color (adjust_brightness (kelvin_to_rgb c.colorTemp) c.brightness) }

/-- Model of `_create_border_bars(thickness)` (`light.pyw` lines 360-369): close the
active set, build four border bars — top and bottom spanning the work width,
left and right spanning the work height — all at thickness
`max(20, thickness)`, then push the current colour. -/
noncomputable def create_border_bars (c : Controller) (thickness : ℤ) : Controller :=
  let c := close_bars c
  let bw := max 20 thickness
  update_colors { c with bars :=
    [ .bar c.workX c.workY c.workW bw "border" none,
      .bar c.workX (c.workY + c.workH - bw) c.workW bw "border" none,
      .bar c.workX c.workY bw c.workH "border" none,
      .bar (c.workX + c.workW - bw) c.workY bw c.workH "border" none ] }

/-- Model of `create_bars` (`light.pyw` lines 331-358): close the active set, build
the new set determined by the current style, then push the current colour.
`//` is Python floor division (`Int.fdiv`); `int(w * 0.15)` and
`int(h * 0.2)` are modelled exactly over `ℚ`. -/
noncomputable def create_bars (c : Controller) : Controller :=
  let c := close_bars c
  let c :=
    if c.style = "ring" then
      let defaultSize : ℤ := 400
      let defaultX := c.workX + Int.fdiv (c.workW - defaultSize) 2
      let defaultY := c.workY + Int.fdiv (c.workH - defaultSize) 2
      let size := load_int c.store "RingSize" defaultSize
      let x := load_int c.store "RingX" defaultX
      let y := load_int c.store "RingY" defaultY
      { c with bars := [.ring x y size ⟨255, 255, 255⟩] }
    else if c.style = "sides" then
      let bw := pyintQ ((c.workW : ℚ) * 0.15)
      { c with bars :=
        [ .bar c.workX c.workY bw c.workH "generic" none,
          .bar (c.workX + c.workW - bw) c.workY bw c.workH "generic" none ] }
    else if c.style = "border" then
      create_border_bars c c.borderWidth
    else if c.style = "top" then
      let bh := pyintQ ((c.workH : ℚ) * 0.2)
      { c with bars := [.bar c.workX c.workY c.workW bh "generic" none] }
    else if c.style = "fullscreen" then
      { c with bars := [.bar c.workX c.workY c.workW c.workH "generic" none] }
    else c
  update_colors c

/-- Model of `set_style(style)` (`light.pyw` lines 371-374): commit the style,
persist it, rebuild the surface set. -/
noncomputable def set_style (c : Controller) (style : String) : Controller :=
  create_bars { c with style := style, store := save_setting c.store "BarStyle" style }

/-- Model of `_update_temp(val)` (`light.pyw` lines 409-412): commit the temperature,
persist it, re-push colours. -/
noncomputable def update_temp (c : Controller) (val : ℤ) : Controller :=
  update_colors { c with colorTemp := val,
                         store := save_setting c.store "ColorTemp" (toString val) }

/-- Model of `_update_brightness(val)` (`light.pyw` lines 414-417): commit the
brightness, persist it, re-push colours. -/
noncomputable def update_brightness (c : Controller) (val : ℚ) : Controller :=
  update_colors { c with brightness := val,
                         store := save_setting c.store "Brightness" (toString val) }

/-- Model of `resize_border(thickness)` (`light.pyw` lines 419-423): no-op unless the
current style is `"border"`; otherwise clamp to the 20 px floor, commit,
persist, and rebuild the four border bars at the committed width. -/
noncomputable def resize_border (c : Controller) (thickness : ℤ) : Controller :=
  if c.style ≠ "border" then c
  else
    let bw := max 20 thickness
    let c := { c with borderWidth := bw,
                      store := save_setting c.store "BorderWidth" (toString bw) }
    create_border_bars c c.borderWidth

/-- Model of `Controller.__init__` (`light.pyw` lines 317-329): load the persisted
settings with their typed defaults, then build the initial surface set. -/
noncomputable def Controller.init (wx wy ww wh : ℤ) (store : List (String × String)) :
    Controller :=
  create_bars
    { workX := wx, workY := wy, workW := ww, workH := wh, bars := [],
      colorTemp := load_int store "ColorTemp" 4000,
      brightness := load_rat store "Brightness" 1,
      style := load_str store "BarStyle" "sides",
      borderWidth := load_int store "BorderWidth" 100,
      store := store }

/-! ## Bar drag/resize interaction (`LightBar._bind_mouse_events.on_drag`,
`light.pyw` lines 145-169)

One `B1-Motion` tick of an active drag.  `drag_start` holds the geometry
snapshot taken at press; in a press-then-drag sequence it equals the bar's
current geometry, which is how the model obtains it.  `winfo_width()` /
`winfo_height()` right after the `geometry(...)` call return the size just
requested (synchronous single-threaded model). -/

/-- A window rectangle. -/
structure Rect where
  x : ℤ
  y : ℤ
  w : ℤ
  h : ℤ
deriving DecidableEq

/-- The geometry after one drag tick (`light.pyw` lines 151-164): move
shifts the origin; each resize edge changes one dimension, anchors the
opposite edge, and is rejected outright unless the new size exceeds 20 px. -/
def drag_geom (x0 y0 w0 h0 : ℤ) (edge : String) (dx dy : ℤ) : Rect :=
  if edge = "move" then ⟨x0 + dx, y0 + dy, w0, h0⟩
  else if edge = "left" then
    if w0 - dx > 20 then ⟨x0 + dx, y0, w0 - dx, h0⟩ else ⟨x0, y0, w0, h0⟩
  else if edge = "right" then
    if w0 + dx > 20 then ⟨x0, y0, w0 + dx, h0⟩ else ⟨x0, y0, w0, h0⟩
  else if edge = "top" then
    if h0 - dy > 20 then ⟨x0, y0 + dy, w0, h0 - dy⟩ else ⟨x0, y0, w0, h0⟩
  else if edge = "bottom" then
    if h0 + dy > 20 then ⟨x0, y0, w0, h0 + dy⟩ else ⟨x0, y0, w0, h0⟩
  else ⟨x0, y0, w0, h0⟩

/-- One full `on_drag` tick on the bar at index `i` of the active set
(`light.pyw` lines 145-169): apply the geometry change in place, and — when
the bar's role is `"border"` and a resize edge is active — report the bar's
current width (for `left`/`right`) or height (for `top`/`bottom`) to
`Controller.resize_border`, which rebuilds all four border bars. -/
noncomputable def bar_on_drag (c : Controller) (i : ℕ) (edge : String) (dx dy : ℤ) :
    Controller :=
  match c.bars[i]? with
  | some (.bar x0 y0 w0 h0 role col) =>
      let g := drag_geom x0 y0 w0 h0 edge dx dy
      let c1 := { c with bars := c.bars.set i (.bar g.x g.y g.w g.h role col) }
      if role = "border" ∧ (edge = "left" ∨ edge = "right") then
        resize_border c1 g.w
      else if role = "border" ∧ (edge = "top" ∨ edge = "bottom") then
        resize_border c1 g.h
      else c1
  | _ => c

/-- The value a resize tick tries to give the dragged dimension of a bar,
where `tdim` is that dimension's press-time value, per resize edge
(`new_w`/`new_h` of `light.pyw` lines 153-164). -/
def attempted_thickness (tdim : ℤ) (edge : String) (dx dy : ℤ) : ℤ :=
  if edge = "left" then tdim - dx
  else if edge = "right" then tdim + dx
  else if edge = "top" then tdim - dy
  else if edge = "bottom" then tdim + dy
  else tdim

/-- The value the dragged dimension actually has after the tick — the
attempted value when it clears the 20 px floor, the old value otherwise. -/
def applied_thickness (tdim : ℤ) (edge : String) (dx dy : ℤ) : ℤ :=
  if attempted_thickness tdim edge dx dy > 20 then attempted_thickness tdim edge dx dy
  else tdim

/-- The press-time value of the dimension a resize edge drags, for the
committed border bar at index `i`: bars 0 and 1 are the horizontal top and
bottom bars (`workW × W`), bars 2 and 3 the vertical left and right bars
(`W × workH`); `left`/`right` edges drag the bar's width, `top`/`bottom`
its height.  Only when the dragged dimension is the bar's thickness does
this equal the committed width `W`; dragging a bar along its length makes
it the work-area span. -/
def border_drag_dim (c0 : Controller) (W : ℤ) (i : ℕ) (e : String) : ℤ :=
  if e = "left" ∨ e = "right" then (if i ≤ 1 then c0.workW else W)
  else (if i ≤ 1 then W else c0.workH)

/-- The controller state right after a committed `resize_border` with
committed width `W`: style `"border"`, four freshly coloured border bars of
thickness `W`, `W` persisted.  (`borderState c0 W` with `20 ≤ W` is the
normal form of `resize_border c0 t` for `W = max 20 t`.) -/
noncomputable def borderState (c0 : Controller) (W : ℤ) : Controller :=
  let fc := adjust_brightness (kelvin_to_rgb c0.colorTemp) c0.brightness
  { workX := c0.workX, workY := c0.workY, workW := c0.workW, workH := c0.workH,
    bars :=
      [ .bar c0.workX c0.workY c0.workW W "border" (some fc),
        .bar c0.workX (c0.workY + c0.workH - W) c0.workW W "border" (some fc),
        .bar c0.workX c0.workY W c0.workH "border" (some fc),
        .bar (c0.workX + c0.workW - W) c0.workY W c0.workH "border" (some fc) ],
    colorTemp := c0.colorTemp, brightness := c0.brightness,
    style := "border", borderWidth := W,
    store := save_setting c0.store "BorderWidth" (toString W) }

/-! ## Ring drag/resize (`RingLight.on_drag`, `light.pyw` lines 261-281) -/

/-- A ring window's geometry: origin and diameter (`size x size` square). -/
structure RingState where
  x : ℤ
  y : ℤ
  size : ℤ
deriving DecidableEq

/-- One `on_drag` tick of the ring (`light.pyw` lines 261-281), given the
press snapshot (`drag_start_pos`: cursor root position, window origin, size)
and the current cursor root position.  In resize mode the new size is twice
the cursor's distance to the *original* centre, floored at 100 px, and the
window is repositioned so the new square is centred on that original centre;
otherwise the window moves by the cursor delta. -/
noncomputable def ring_on_drag (resizeMode : Bool)
    (startXRoot startYRoot winX winY size0 exRoot eyRoot : ℤ) : RingState :=
  if resizeMode then
    let centerX : ℝ := (winX : ℝ) + (size0 : ℝ) / 2
    let centerY : ℝ := (winY : ℝ) + (size0 : ℝ) / 2
    let newRadius : ℝ :=
      Real.sqrt (((exRoot : ℝ) - centerX) ^ 2 + ((eyRoot : ℝ) - centerY) ^ 2)
    let newSize : ℤ := max 100 (pyint (newRadius * 2))
    let newX : ℤ := pyint (centerX - (newSize : ℝ) / 2)
    let newY : ℤ := pyint (centerY - (newSize : ℝ) / 2)
    ⟨newX, newY, newSize⟩
  else
    ⟨winX + (exRoot - startXRoot), winY + (eyRoot - startYRoot), size0⟩

/-! ## Close-all sweep (`light.pyw` lines 183-184, 295-296, 425-432)

`LightBar.close`/`RingLight.close` call `win.destroy()` with no handler, and
neither `close_bars` nor `close_all` catches anything; what makes a stray
close of an already-closed window harmless is the toolkit itself: Tk's
`destroy` command silently skips window names that no longer exist
(`Tk_DestroyObjCmd` resets the error and continues), and only fails once the
whole application is gone.  Windows are modelled by their alive flags, in
the order of the controller's `bars` list. -/

/-- Modelled from the toolkit: `win.destroy()` on a window whose application
is still running always succeeds and leaves the window destroyed, whether or
not the window still existed; it raises only if the application itself has
been destroyed. -/
def tk_destroy (appAlive : Bool) (winAlive : Bool) : Except String Bool :=
  if appAlive then .ok false
  else .error "can not invoke destroy command: application has been destroyed"

/-- The `for bar in self.bars: bar.close()` sweep of `close_bars`
(`light.pyw` lines 425-427): destroy each window in order; a raised
exception aborts the loop, leaving later windows untouched.  Returns the
window flags after the sweep and whether an exception escaped. -/
def close_sweep (appAlive : Bool) : List Bool → List Bool × Bool
  | [] => ([], false)
  | w :: ws =>
      match tk_destroy appAlive w with
      | .ok w' =>
          let r := close_sweep appAlive ws
          (w' :: r.1, r.2)
      | .error _ => (w :: ws, true)

/-- Outcome of `close_all` (`light.pyw` lines 430-432). -/
structure CloseAllResult where
  wins : List Bool
  barsCleared : Bool
  quit : Bool
  raised : Bool
deriving DecidableEq

/-- Model of `close_all` (`light.pyw` lines 430-432): sweep-close the tracked
surfaces, then clear the tracking list and `root.quit()` the event loop —
unless the sweep raised, in which case neither happens. -/
def close_all_model (appAlive : Bool) (wins : List Bool) : CloseAllResult :=
  let r := close_sweep appAlive wins
  if r.2 then ⟨r.1, false, false, true⟩
  else ⟨r.1, true, true, false⟩

/-! ## Derived predicates and concrete instances used by the theorems -/

/-- Every active surface shows exactly the colour computed from the
controller's committed temperature/brightness pair. -/
def displays_current (c : Controller) : Prop :=
  ∀ s ∈ c.bars,
    s.displayed_color =
      some (adjust_brightness (kelvin_to_rgb c.colorTemp) c.brightness)

/-- A concrete controller in the committed `"border"` style (1920×1080 work
area at the origin, default colour settings, border width 100). -/
noncomputable def demo_border : Controller :=
  { workX := 0, workY := 0, workW := 1920, workH := 1080, bars := [],
    colorTemp := 4000, brightness := 1, style := "border", borderWidth := 100,
    store := [] }

/-- The controller after startup on an empty registry followed by switching
the style to `"border"` and back to `"sides"`. -/
noncomputable def c3_demo : Controller :=
  set_style (set_style (Controller.init 0 0 1920 1080 []) "border") "sides"

/-- Executable transcription of claim C3's description of the active set:
exactly two rectangular surfaces whose roles are `"left"` and `"right"`,
each of width 15% of the work-area width. -/
def c3_claim_check (c : Controller) : Bool :=
  match c.bars with
  | [.bar _ _ w1 _ r1 _, .bar _ _ w2 _ r2 _] =>
      ((r1 == "left" && r2 == "right") || (r1 == "right" && r2 == "left")) &&
        (w1 == pyintQ ((c.workW : ℚ) * 0.15)) &&
        (w2 == pyintQ ((c.workW : ℚ) * 0.15))
  | _ => false

/-! # Theorems -/

/-! ## Arithmetic facts about the colour model -/

theorem clamp255_nonneg (v : ℝ) : 0 ≤ clamp255 v := by
  unfold clamp255 pyint
  rw [if_pos (le_max_left _ _)]
  exact Int.floor_nonneg.mpr (le_max_left _ _)

theorem clamp255_le (v : ℝ) : clamp255 v ≤ 255 := by
  unfold clamp255 pyint
  rw [if_pos (le_max_left _ _)]
  have h1 : max 0 (min 255 v) ≤ (255 : ℝ) := max_le (by norm_num) (min_le_left _ _)
  calc ⌊max 0 (min 255 v)⌋ ≤ ⌊(255 : ℝ)⌋ := Int.floor_le_floor h1
    _ = 255 := by norm_num

theorem pyintQ_intCast (n : ℤ) : pyintQ (n : ℚ) = n := by
  unfold pyintQ
  split <;> simp

/-- C4: for every integer temperature in `[2700, 6500]` each channel of
`kelvin_to_rgb` lies in `[0, 255]`, and at 6600 K (scaled temperature 66)
the blue channel is exactly 255. -/
theorem kelvin_channels_in_range (t : ℤ) (h1 : 2700 ≤ t) (h2 : t ≤ 6500) :
    (0 ≤ (kelvin_to_rgb t).r ∧ (kelvin_to_rgb t).r ≤ 255) ∧
    (0 ≤ (kelvin_to_rgb t).g ∧ (kelvin_to_rgb t).g ≤ 255) ∧
    (0 ≤ (kelvin_to_rgb t).b ∧ (kelvin_to_rgb t).b ≤ 255) ∧
    (kelvin_to_rgb 6600).b = 255 := by
  refine ⟨⟨clamp255_nonneg _, clamp255_le _⟩,
          ⟨clamp255_nonneg _, clamp255_le _⟩,
          ⟨clamp255_nonneg _, clamp255_le _⟩, ?_⟩
  show clamp255 (kelvin_blue_raw (((6600 : ℤ) : ℝ) / 100)) = 255
  have htemp : (((6600 : ℤ) : ℝ) / 100) = 66 := by norm_num
  rw [htemp]
  have hblue : kelvin_blue_raw 66 = 255 := by
    unfold kelvin_blue_raw
    rw [if_pos le_rfl]
  rw [hblue]
  unfold clamp255 pyint
  norm_num

/-- Witness for C4 at `t = 4000`. -/
theorem kelvin_channels_in_range_witness :
    ((2700 : ℤ) ≤ 4000 ∧ (4000 : ℤ) ≤ 6500) ∧
    ((0 ≤ (kelvin_to_rgb 4000).r ∧ (kelvin_to_rgb 4000).r ≤ 255) ∧
     (0 ≤ (kelvin_to_rgb 4000).g ∧ (kelvin_to_rgb 4000).g ≤ 255) ∧
     (0 ≤ (kelvin_to_rgb 4000).b ∧ (kelvin_to_rgb 4000).b ≤ 255) ∧
     (kelvin_to_rgb 6600).b = 255) :=
  ⟨by norm_num, kelvin_channels_in_range 4000 (by norm_num) (by norm_num)⟩

/-- C8: `adjust_brightness` with factor 1.0 is the identity on each channel
(for channels in the hex range `[0,255]`), and with factor 0.0 it yields
`#000000`, i.e. the triple `(0,0,0)`. -/
theorem adjust_brightness_one_and_zero :
    (∀ c : Rgb, 0 ≤ c.r → c.r ≤ 255 → 0 ≤ c.g → c.g ≤ 255 →
      0 ≤ c.b → c.b ≤ 255 → adjust_brightness c 1 = c) ∧
    (∀ c : Rgb, adjust_brightness c 0 = ⟨0, 0, 0⟩) := by
  constructor
  · rintro ⟨r, g, b⟩ hr0 hr1 hg0 hg1 hb0 hb1
    dsimp only at hr0 hr1 hg0 hg1 hb0 hb1
    unfold adjust_brightness
    dsimp only
    simp only [mul_one, pyintQ_intCast, Rgb.mk.injEq]
    omega
  · rintro ⟨r, g, b⟩
    unfold adjust_brightness
    simp only [mul_zero]
    norm_num [pyintQ]

/-- Witness for C8 at the colour `(10, 20, 30)`. -/
theorem adjust_brightness_one_and_zero_witness :
    ((0 : ℤ) ≤ 10 ∧ (10 : ℤ) ≤ 255 ∧ (0 : ℤ) ≤ 20 ∧ (20 : ℤ) ≤ 255 ∧
     (0 : ℤ) ≤ 30 ∧ (30 : ℤ) ≤ 255) ∧
    adjust_brightness ⟨10, 20, 30⟩ 1 = ⟨10, 20, 30⟩ :=
  ⟨by norm_num,
   adjust_brightness_one_and_zero.1 ⟨10, 20, 30⟩
     (by norm_num) (by norm_num) (by norm_num) (by norm_num) (by norm_num) (by norm_num)⟩

/-! ## Settings-store lemmas -/

theorem save_setting_overwrite (s : List (String × String)) (n v v' : String) :
    save_setting (save_setting s n v) n v' = save_setting s n v' := by
  induction s with
  | nil => simp [save_setting]
  | cons p r ih =>
      obtain ⟨k, w⟩ := p
      by_cases h : k = n
      · simp [save_setting, h]
      · simp [save_setting, h, ih]

/-! ## Controller field-preservation lemmas -/

theorem update_colors_fields (c : Controller) :
    (update_colors c).workX = c.workX ∧ (update_colors c).workY = c.workY ∧
    (update_colors c).workW = c.workW ∧ (update_colors c).workH = c.workH ∧
    (update_colors c).colorTemp = c.colorTemp ∧
    (update_colors c).brightness = c.brightness ∧
    (update_colors c).style = c.style ∧
    (update_colors c).borderWidth = c.borderWidth ∧
    (update_colors c).store = c.store := by
  unfold update_colors
  exact ⟨rfl, rfl, rfl, rfl, rfl, rfl, rfl, rfl, rfl⟩

theorem create_bars_fields (c : Controller) :
    (create_bars c).workX = c.workX ∧ (create_bars c).workY = c.workY ∧
    (create_bars c).workW = c.workW ∧ (create_bars c).workH = c.workH ∧
    (create_bars c).colorTemp = c.colorTemp ∧
    (create_bars c).brightness = c.brightness ∧
    (create_bars c).style = c.style ∧
    (create_bars c).borderWidth = c.borderWidth ∧
    (create_bars c).store = c.store := by
  unfold create_bars create_border_bars close_bars update_colors
  dsimp only
  split_ifs <;> exact ⟨rfl, rfl, rfl, rfl, rfl, rfl, rfl, rfl, rfl⟩

/-! ## C10: `resize_border` outside the border style -/

/-- C10: when the current style is not `"border"`, `resize_border` is a
complete no-op — the whole controller state (stored border width, active
surface set, persisted settings) is returned unchanged. -/
theorem resize_border_nonborder_noop (c : Controller) (t : ℤ)
    (h : c.style ≠ "border") :
    resize_border c t = c := by
  unfold resize_border
  rw [if_pos h]

/-- Witness for C10: the startup controller is in the `"sides"` style, and
`resize_border` at thickness 50 leaves it untouched. -/
theorem resize_border_nonborder_noop_witness :
    (Controller.init 0 0 1920 1080 []).style ≠ "border" ∧
    resize_border (Controller.init 0 0 1920 1080 []) 50 =
      Controller.init 0 0 1920 1080 [] := by
  have hstyle : (Controller.init 0 0 1920 1080 []).style = "sides" := by
    unfold Controller.init
    rw [(create_bars_fields _).2.2.2.2.2.2.1]
    rfl
  refine ⟨?_, ?_⟩
  · rw [hstyle]; decide
  · exact resize_border_nonborder_noop _ 50 (by rw [hstyle]; decide)

/-! ## C6: colour pushes after every update call -/

/-- C6: after any update call returns — a temperature change, a brightness
change, or a surface-set recreation (`create_bars` or
`_create_border_bars`) — every surface in the active set displays exactly
`adjust_brightness(kelvin_to_rgb(temp), brightness)` for the committed pair;
no surface keeps a stale colour. -/
theorem update_calls_push_committed_color (c : Controller) (v : ℤ) (q : ℚ) (t : ℤ) :
    displays_current (update_temp c v) ∧
    displays_current (update_brightness c q) ∧
    displays_current (create_bars c) ∧
    displays_current (create_border_bars c t) := by
  have key : ∀ c' : Controller, displays_current (update_colors c') := by
    intro c' s hs
    simp only [update_colors, List.mem_map] at hs
    obtain ⟨b, -, rfl⟩ := hs
    cases b <;> rfl
  refine ⟨key _, key _, ?_, key _⟩
  · unfold create_bars
    exact key _

/-! ## C2: the close-all sweep with an already-closed window -/

/-- C2: while the application is alive, closing an already-destroyed window
during the close-all sweep is harmless (Tk's `destroy` silently skips
nonexistent windows): for every tracked-surface set that contains an
already-destroyed window, `close_all` still destroys every remaining
surface, clears the tracking list and terminates the event loop, and no
error reaches the caller. -/
theorem close_all_ignores_already_closed (wins : List Bool) (h : false ∈ wins) :
    close_all_model true wins =
      ⟨wins.map (fun _ => false), true, true, false⟩ := by
  have sweep : ∀ l : List Bool,
      close_sweep true l = (l.map (fun _ => false), false) := by
    intro l
    induction l with
    | nil => rfl
    | cons w ws ih => simp [close_sweep, tk_destroy, ih]
  simp [close_all_model, sweep]

/-- Witness for C2: a set of two windows whose first is already destroyed. -/
theorem close_all_ignores_already_closed_witness :
    (false ∈ [false, true]) ∧
    close_all_model true [false, true] = ⟨[false, false], true, true, false⟩ :=
  ⟨by decide,
   by simpa using close_all_ignores_already_closed [false, true] (by decide)⟩

/-! ## C9: typed defaults on missing or malformed settings -/

/-- The `"ring"` branch of `create_bars` (`light.pyw` lines 334-343). -/
theorem create_bars_ring (c : Controller) (h : c.style = "ring") :
    create_bars c =
      update_colors { c with bars :=
        [.ring (load_int c.store "RingX" (c.workX + Int.fdiv (c.workW - 400) 2))
               (load_int c.store "RingY" (c.workY + Int.fdiv (c.workH - 400) 2))
               (load_int c.store "RingSize" 400) ⟨255, 255, 255⟩] } := by
  unfold create_bars close_bars
  dsimp only
  rw [if_pos h]


/-- C9: for every setting name and typed default, `load_setting` returns the
default unchanged whenever the stored value is missing or cannot be coerced
to the default's type; consequently a startup on an empty (or malformed)
registry uses the documented defaults — 4000 K, brightness 1.0, style
`"sides"`, border width 100, and a 400 px ring centred on the work area when
the ring style is selected. -/
theorem load_setting_defaults :
    (∀ (store : List (String × String)) (name : String) (d : PyVal),
       (reg_lookup store name = none ∨
        ∃ s, reg_lookup store name = some s ∧ coerce_to d s = none) →
       load_setting store name d = d) ∧
    (∀ wx wy ww wh : ℤ,
       (Controller.init wx wy ww wh []).colorTemp = 4000 ∧
       (Controller.init wx wy ww wh []).brightness = 1 ∧
       (Controller.init wx wy ww wh []).style = "sides" ∧
       (Controller.init wx wy ww wh []).borderWidth = 100) ∧
    (∀ wx wy ww wh : ℤ,
       (create_bars { Controller.init wx wy ww wh [] with style := "ring" }).bars =
         [.ring (wx + Int.fdiv (ww - 400) 2) (wy + Int.fdiv (wh - 400) 2) 400
            (adjust_brightness (kelvin_to_rgb 4000) 1)]) := by
  refine ⟨?_, ?_, ?_⟩
  · rintro store name d (hmiss | ⟨s, hfound, hfail⟩)
    · unfold load_setting
      rw [hmiss]
    · unfold load_setting
      rw [hfound]
      dsimp only
      rw [hfail]
      rfl
  · intro wx wy ww wh
    unfold Controller.init
    obtain ⟨-, -, -, -, h5, h6, h7, h8, -⟩ := create_bars_fields
      { workX := wx, workY := wy, workW := ww, workH := wh, bars := [],
        colorTemp := load_int [] "ColorTemp" 4000,
        brightness := load_rat [] "Brightness" 1,
        style := load_str [] "BarStyle" "sides",
        borderWidth := load_int [] "BorderWidth" 100, store := [] }
    exact ⟨h5, h6, h7, h8⟩
  · intro wx wy ww wh
    have hfields := create_bars_fields
      { workX := wx, workY := wy, workW := ww, workH := wh, bars := [],
        colorTemp := load_int [] "ColorTemp" 4000,
        brightness := load_rat [] "Brightness" 1,
        style := load_str [] "BarStyle" "sides",
        borderWidth := load_int [] "BorderWidth" 100, store := [] }
    obtain ⟨f1, f2, f3, f4, f5, f6, -, -, f9⟩ := hfields
    unfold Controller.init
    rw [create_bars_ring _ rfl]
    unfold update_colors
    dsimp only
    rw [f1, f2, f3, f5, f6, f9]
    rfl

/-- Witness for C9: a registry holding `"abc"` under `ColorTemp` cannot be
coerced to the int default 4000, so the default is returned. -/
theorem load_setting_defaults_witness :
    (reg_lookup [("ColorTemp", "abc")] "ColorTemp" = none ∨
     ∃ s, reg_lookup [("ColorTemp", "abc")] "ColorTemp" = some s ∧
       coerce_to (.int 4000) s = none) ∧
    load_setting [("ColorTemp", "abc")] "ColorTemp" (.int 4000) = .int 4000 :=
  ⟨Or.inr ⟨"abc", rfl, rfl⟩,
   load_setting_defaults.1 [("ColorTemp", "abc")] "ColorTemp" (.int 4000)
     (Or.inr ⟨"abc", rfl, rfl⟩)⟩

/-! ## C5: ring resize from the original centre -/

/-- C5: a ring resize drag computes the new size from the cursor's distance
to the original centre — the press position plays no role — with a 100 px
minimum diameter, and re-centres the ring on the original centre.  In
particular, for the 400 px ring at (100,100)-(500,500) (centre (300,300)), a
drag ending at cursor (600,300) — distance 300 from the centre — yields size
600 at origin (0,0), still centred on (300,300). -/
theorem ring_resize_from_center (sxr syr : ℤ) :
    (∀ a b wx wy s0 ex ey : ℤ, 100 ≤ (ring_on_drag true a b wx wy s0 ex ey).size) ∧
    ring_on_drag true sxr syr 100 100 400 600 300 = ⟨0, 0, 600⟩ ∧
    ((ring_on_drag true sxr syr 100 100 400 600 300).x : ℝ) +
        ((ring_on_drag true sxr syr 100 100 400 600 300).size : ℝ) / 2 =
      ((100 : ℤ) : ℝ) + ((400 : ℤ) : ℝ) / 2 := by
  have hconc : ring_on_drag true sxr syr 100 100 400 600 300 = ⟨0, 0, 600⟩ := by
    unfold ring_on_drag
    rw [if_pos rfl]
    have hcx : ((100 : ℤ) : ℝ) + ((400 : ℤ) : ℝ) / 2 = 300 := by norm_num
    rw [hcx]
    dsimp only
    have hsq : (((600 : ℤ) : ℝ) - 300) ^ 2 + (((300 : ℤ) : ℝ) - 300) ^ 2 =
        (300 : ℝ) ^ 2 := by norm_num
    rw [hsq, Real.sqrt_sq (by norm_num : (0 : ℝ) ≤ 300)]
    have h600 : pyint ((300 : ℝ) * 2) = 600 := by
      unfold pyint
      rw [if_pos (by norm_num)]
      norm_num
    rw [h600]
    have hmax : max (100 : ℤ) 600 = 600 := by norm_num
    rw [hmax]
    have h0 : pyint ((300 : ℝ) - ((600 : ℤ) : ℝ) / 2) = 0 := by
      unfold pyint
      rw [if_pos (by norm_num)]
      norm_num
    rw [h0]
  refine ⟨?_, hconc, ?_⟩
  · intro a b wx wy s0 ex ey
    unfold ring_on_drag
    rw [if_pos rfl]
    exact le_max_left _ _
  · rw [hconc]
    norm_num

/-! ## Border drag lemmas (C1, C7) -/

theorem drag_geom_left (x0 y0 w0 h0 dx dy : ℤ) :
    drag_geom x0 y0 w0 h0 "left" dx dy =
      if w0 - dx > 20 then ⟨x0 + dx, y0, w0 - dx, h0⟩ else ⟨x0, y0, w0, h0⟩ := by
  unfold drag_geom
  rw [if_neg (by decide), if_pos rfl]

theorem drag_geom_right (x0 y0 w0 h0 dx dy : ℤ) :
    drag_geom x0 y0 w0 h0 "right" dx dy =
      if w0 + dx > 20 then ⟨x0, y0, w0 + dx, h0⟩ else ⟨x0, y0, w0, h0⟩ := by
  unfold drag_geom
  rw [if_neg (by decide), if_neg (by decide), if_pos rfl]

theorem drag_geom_top (x0 y0 w0 h0 dx dy : ℤ) :
    drag_geom x0 y0 w0 h0 "top" dx dy =
      if h0 - dy > 20 then ⟨x0, y0 + dy, w0, h0 - dy⟩ else ⟨x0, y0, w0, h0⟩ := by
  unfold drag_geom
  rw [if_neg (by decide), if_neg (by decide), if_neg (by decide), if_pos rfl]

theorem drag_geom_bottom (x0 y0 w0 h0 dx dy : ℤ) :
    drag_geom x0 y0 w0 h0 "bottom" dx dy =
      if h0 + dy > 20 then ⟨x0, y0, w0, h0 + dy⟩ else ⟨x0, y0, w0, h0⟩ := by
  unfold drag_geom
  rw [if_neg (by decide), if_neg (by decide), if_neg (by decide), if_neg (by decide),
      if_pos rfl]

theorem attempted_left (t dx dy : ℤ) :
    attempted_thickness t "left" dx dy = t - dx := by
  unfold attempted_thickness
  rw [if_pos rfl]

theorem attempted_right (t dx dy : ℤ) :
    attempted_thickness t "right" dx dy = t + dx := by
  unfold attempted_thickness
  rw [if_neg (by decide), if_pos rfl]

theorem attempted_top (t dx dy : ℤ) :
    attempted_thickness t "top" dx dy = t - dy := by
  unfold attempted_thickness
  rw [if_neg (by decide), if_neg (by decide), if_pos rfl]

theorem attempted_bottom (t dx dy : ℤ) :
    attempted_thickness t "bottom" dx dy = t + dy := by
  unfold attempted_thickness
  rw [if_neg (by decide), if_neg (by decide), if_neg (by decide), if_pos rfl]

/-- In the `"border"` style, `resize_border` lands exactly in the committed
border state for width `max 20 t`. -/
theorem resize_border_committed (c0 : Controller) (t : ℤ) (h : c0.style = "border") :
    resize_border c0 t = borderState c0 (max 20 t) := by
  obtain ⟨wx, wy, ww, wh, bars0, ct, br, st, bw0, sto⟩ := c0
  dsimp only at h
  subst h
  unfold resize_border
  rw [if_neg (by simp)]
  unfold create_border_bars close_bars update_colors borderState
  dsimp only
  have hmax : max (20 : ℤ) (max 20 t) = max 20 t := by
    rw [← max_assoc, max_self]
  rw [hmax]
  simp only [List.map_cons, List.map_nil, Surface.set_color]

/-- The state `borderState` depends only on the base fields that a bars-replacement
leaves alone, except that a repeated `BorderWidth` save overwrites. -/
theorem borderState_bars_update (c0 : Controller) (W X : ℤ) (bars' : List Surface) :
    borderState { borderState c0 W with bars := bars' } X = borderState c0 X := by
  unfold borderState
  dsimp only
  rw [save_setting_overwrite]

/-- Unfolding equation for `bar_on_drag` when the dragged surface is a
rectangular bar. -/
theorem bar_on_drag_eq_of_bar (c : Controller) (i : ℕ) (edge : String)
    (dx dy x0 y0 w0 h0 : ℤ) (role : String) (col : Option Rgb)
    (h : c.bars[i]? = some (.bar x0 y0 w0 h0 role col)) :
    bar_on_drag c i edge dx dy =
      (let g := drag_geom x0 y0 w0 h0 edge dx dy
       let c1 := { c with bars := c.bars.set i (.bar g.x g.y g.w g.h role col) }
       if role = "border" ∧ (edge = "left" ∨ edge = "right") then
         resize_border c1 g.w
       else if role = "border" ∧ (edge = "top" ∨ edge = "bottom") then
         resize_border c1 g.h
       else c1) := by
  unfold bar_on_drag
  rw [h]

/-- One `left`/`right`-edge resize tick on a committed border bar lands in
the committed border state for `max 20` of the width the dragged bar ends up
with (the tick reports `winfo_width()`, `light.pyw` lines 166-167). -/
theorem tick_left_right (c0 : Controller) (W dx dy : ℤ) (i : ℕ) (e : String)
    (x0 y0 w0 h0 : ℤ)
    (he : e = "left" ∨ e = "right")
    (hbar : (borderState c0 W).bars[i]? = some (.bar x0 y0 w0 h0 "border"
      (some (adjust_brightness (kelvin_to_rgb c0.colorTemp) c0.brightness)))) :
    bar_on_drag (borderState c0 W) i e dx dy =
      borderState c0 (max 20 (applied_thickness w0 e dx dy)) := by
  rcases he with rfl | rfl
  · rw [bar_on_drag_eq_of_bar (borderState c0 W) i "left" dx dy x0 y0 w0 h0 "border"
          (some (adjust_brightness (kelvin_to_rgb c0.colorTemp) c0.brightness)) hbar]
    dsimp only
    rw [drag_geom_left]
    have happ : applied_thickness w0 "left" dx dy =
        if w0 - dx > 20 then w0 - dx else w0 := by
      unfold applied_thickness
      rw [attempted_left]
    rw [happ]
    by_cases hc : w0 - dx > 20
    · rw [if_pos hc, if_pos hc]
      dsimp only
      rw [if_pos (by exact ⟨rfl, Or.inl rfl⟩)]
      rw [resize_border_committed _ _ rfl, borderState_bars_update]
    · rw [if_neg hc, if_neg hc]
      dsimp only
      rw [if_pos (by exact ⟨rfl, Or.inl rfl⟩)]
      rw [resize_border_committed _ _ rfl, borderState_bars_update]
  · rw [bar_on_drag_eq_of_bar (borderState c0 W) i "right" dx dy x0 y0 w0 h0 "border"
          (some (adjust_brightness (kelvin_to_rgb c0.colorTemp) c0.brightness)) hbar]
    dsimp only
    rw [drag_geom_right]
    have happ : applied_thickness w0 "right" dx dy =
        if w0 + dx > 20 then w0 + dx else w0 := by
      unfold applied_thickness
      rw [attempted_right]
    rw [happ]
    by_cases hc : w0 + dx > 20
    · rw [if_pos hc, if_pos hc]
      dsimp only
      rw [if_pos (by exact ⟨rfl, Or.inr rfl⟩)]
      rw [resize_border_committed _ _ rfl, borderState_bars_update]
    · rw [if_neg hc, if_neg hc]
      dsimp only
      rw [if_pos (by exact ⟨rfl, Or.inr rfl⟩)]
      rw [resize_border_committed _ _ rfl, borderState_bars_update]

/-- One `top`/`bottom`-edge resize tick on a committed border bar lands in
the committed border state for `max 20` of the height the dragged bar ends
up with (the tick reports `winfo_height()`, `light.pyw` lines 168-169). -/
theorem tick_top_bottom (c0 : Controller) (W dx dy : ℤ) (i : ℕ) (e : String)
    (x0 y0 w0 h0 : ℤ)
    (he : e = "top" ∨ e = "bottom")
    (hbar : (borderState c0 W).bars[i]? = some (.bar x0 y0 w0 h0 "border"
      (some (adjust_brightness (kelvin_to_rgb c0.colorTemp) c0.brightness)))) :
    bar_on_drag (borderState c0 W) i e dx dy =
      borderState c0 (max 20 (applied_thickness h0 e dx dy)) := by
  rcases he with rfl | rfl
  · rw [bar_on_drag_eq_of_bar (borderState c0 W) i "top" dx dy x0 y0 w0 h0 "border"
          (some (adjust_brightness (kelvin_to_rgb c0.colorTemp) c0.brightness)) hbar]
    dsimp only
    rw [drag_geom_top]
    have happ : applied_thickness h0 "top" dx dy =
        if h0 - dy > 20 then h0 - dy else h0 := by
      unfold applied_thickness
      rw [attempted_top]
    rw [happ]
    by_cases hc : h0 - dy > 20
    · rw [if_pos hc, if_pos hc]
      dsimp only
      rw [if_neg (by decide), if_pos (by exact ⟨rfl, Or.inl rfl⟩)]
      rw [resize_border_committed _ _ rfl, borderState_bars_update]
    · rw [if_neg hc, if_neg hc]
      dsimp only
      rw [if_neg (by decide), if_pos (by exact ⟨rfl, Or.inl rfl⟩)]
      rw [resize_border_committed _ _ rfl, borderState_bars_update]
  · rw [bar_on_drag_eq_of_bar (borderState c0 W) i "bottom" dx dy x0 y0 w0 h0 "border"
          (some (adjust_brightness (kelvin_to_rgb c0.colorTemp) c0.brightness)) hbar]
    dsimp only
    rw [drag_geom_bottom]
    have happ : applied_thickness h0 "bottom" dx dy =
        if h0 + dy > 20 then h0 + dy else h0 := by
      unfold applied_thickness
      rw [attempted_bottom]
    rw [happ]
    by_cases hc : h0 + dy > 20
    · rw [if_pos hc, if_pos hc]
      dsimp only
      rw [if_neg (by decide), if_pos (by exact ⟨rfl, Or.inr rfl⟩)]
      rw [resize_border_committed _ _ rfl, borderState_bars_update]
    · rw [if_neg hc, if_neg hc]
      dsimp only
      rw [if_neg (by decide), if_pos (by exact ⟨rfl, Or.inr rfl⟩)]
      rw [resize_border_committed _ _ rfl, borderState_bars_update]

/-- One resize tick on any of the four committed border bars, along ANY of
the four resize edges, lands in the committed border state for `max 20` of
the dragged dimension's post-tick value — the new thickness for a
thickness-dimension edge, but the bar's length for a length edge. -/
theorem bar_on_drag_borderState (c0 : Controller) (W dx dy : ℤ) (i : ℕ) (e : String)
    (hi : i = 0 ∨ i = 1 ∨ i = 2 ∨ i = 3)
    (he : e = "left" ∨ e = "right" ∨ e = "top" ∨ e = "bottom") :
    bar_on_drag (borderState c0 W) i e dx dy =
      borderState c0 (max 20 (applied_thickness (border_drag_dim c0 W i e) e dx dy)) := by
  rcases he with rfl | rfl | rfl | rfl
  · have hdim : border_drag_dim c0 W i "left" = if i ≤ 1 then c0.workW else W := by
      unfold border_drag_dim
      rw [if_pos (Or.inl rfl)]
    rw [hdim]
    rcases hi with rfl | rfl | rfl | rfl
    · rw [if_pos (by norm_num)]
      exact tick_left_right c0 W dx dy 0 "left" c0.workX c0.workY c0.workW W
        (Or.inl rfl) rfl
    · rw [if_pos (by norm_num)]
      exact tick_left_right c0 W dx dy 1 "left" c0.workX (c0.workY + c0.workH - W)
        c0.workW W (Or.inl rfl) rfl
    · rw [if_neg (by norm_num)]
      exact tick_left_right c0 W dx dy 2 "left" c0.workX c0.workY W c0.workH
        (Or.inl rfl) rfl
    · rw [if_neg (by norm_num)]
      exact tick_left_right c0 W dx dy 3 "left" (c0.workX + c0.workW - W) c0.workY
        W c0.workH (Or.inl rfl) rfl
  · have hdim : border_drag_dim c0 W i "right" = if i ≤ 1 then c0.workW else W := by
      unfold border_drag_dim
      rw [if_pos (Or.inr rfl)]
    rw [hdim]
    rcases hi with rfl | rfl | rfl | rfl
    · rw [if_pos (by norm_num)]
      exact tick_left_right c0 W dx dy 0 "right" c0.workX c0.workY c0.workW W
        (Or.inr rfl) rfl
    · rw [if_pos (by norm_num)]
      exact tick_left_right c0 W dx dy 1 "right" c0.workX (c0.workY + c0.workH - W)
        c0.workW W (Or.inr rfl) rfl
    · rw [if_neg (by norm_num)]
      exact tick_left_right c0 W dx dy 2 "right" c0.workX c0.workY W c0.workH
        (Or.inr rfl) rfl
    · rw [if_neg (by norm_num)]
      exact tick_left_right c0 W dx dy 3 "right" (c0.workX + c0.workW - W) c0.workY
        W c0.workH (Or.inr rfl) rfl
  · have hdim : border_drag_dim c0 W i "top" = if i ≤ 1 then W else c0.workH := by
      unfold border_drag_dim
      rw [if_neg (by decide)]
    rw [hdim]
    rcases hi with rfl | rfl | rfl | rfl
    · rw [if_pos (by norm_num)]
      exact tick_top_bottom c0 W dx dy 0 "top" c0.workX c0.workY c0.workW W
        (Or.inl rfl) rfl
    · rw [if_pos (by norm_num)]
      exact tick_top_bottom c0 W dx dy 1 "top" c0.workX (c0.workY + c0.workH - W)
        c0.workW W (Or.inl rfl) rfl
    · rw [if_neg (by norm_num)]
      exact tick_top_bottom c0 W dx dy 2 "top" c0.workX c0.workY W c0.workH
        (Or.inl rfl) rfl
    · rw [if_neg (by norm_num)]
      exact tick_top_bottom c0 W dx dy 3 "top" (c0.workX + c0.workW - W) c0.workY
        W c0.workH (Or.inl rfl) rfl
  · have hdim : border_drag_dim c0 W i "bottom" = if i ≤ 1 then W else c0.workH := by
      unfold border_drag_dim
      rw [if_neg (by decide)]
    rw [hdim]
    rcases hi with rfl | rfl | rfl | rfl
    · rw [if_pos (by norm_num)]
      exact tick_top_bottom c0 W dx dy 0 "bottom" c0.workX c0.workY c0.workW W
        (Or.inr rfl) rfl
    · rw [if_pos (by norm_num)]
      exact tick_top_bottom c0 W dx dy 1 "bottom" c0.workX (c0.workY + c0.workH - W)
        c0.workW W (Or.inr rfl) rfl
    · rw [if_neg (by norm_num)]
      exact tick_top_bottom c0 W dx dy 2 "bottom" c0.workX c0.workY W c0.workH
        (Or.inr rfl) rfl
    · rw [if_neg (by norm_num)]
      exact tick_top_bottom c0 W dx dy 3 "bottom" (c0.workX + c0.workW - W) c0.workY
        W c0.workH (Or.inr rfl) rfl

/-- C1: from any committed border width `W = max 20 t`, a drag tick that
tries to take a border bar's thickness edge below the 20 px floor leaves the
whole controller state unchanged: the border width stays at `W` and the four
border bars keep their previous geometry (the rejected geometry change means
the bar still reports `W`, so the rebuild reproduces the same state). -/
theorem border_resize_below_floor_noop (c0 : Controller) (t dx dy : ℤ)
    (i : ℕ) (e : String)
    (hstyle : c0.style = "border")
    (hpair : ((i = 0 ∨ i = 1) ∧ (e = "top" ∨ e = "bottom")) ∨
             ((i = 2 ∨ i = 3) ∧ (e = "left" ∨ e = "right")))
    (hfloor : attempted_thickness (max 20 t) e dx dy < 20) :
    bar_on_drag (resize_border c0 t) i e dx dy = resize_border c0 t := by
  rw [resize_border_committed c0 t hstyle]
  have hi : i = 0 ∨ i = 1 ∨ i = 2 ∨ i = 3 := by
    rcases hpair with ⟨h', -⟩ | ⟨h', -⟩ <;> tauto
  have he : e = "left" ∨ e = "right" ∨ e = "top" ∨ e = "bottom" := by
    rcases hpair with ⟨-, h'⟩ | ⟨-, h'⟩ <;> tauto
  rw [bar_on_drag_borderState c0 (max 20 t) dx dy i e hi he]
  have hdim : border_drag_dim c0 (max 20 t) i e = max 20 t := by
    rcases hpair with ⟨hi', he'⟩ | ⟨hi', he'⟩
    · rcases hi' with rfl | rfl <;> rcases he' with rfl | rfl <;>
        (unfold border_drag_dim; rw [if_neg (by decide), if_pos (by norm_num)])
    · rcases hi' with rfl | rfl <;> rcases he' with rfl | rfl <;>
        (unfold border_drag_dim; rw [if_pos (by decide), if_neg (by norm_num)])
  rw [hdim]
  have happ : applied_thickness (max 20 t) e dx dy = max 20 t := by
    unfold applied_thickness
    rw [if_neg (by omega)]
  rw [happ, ← max_assoc, max_self]

/-- Witness for C1: committed width 100, left vertical bar (index 2), left
edge dragged by 85 px — attempted thickness 15, below the floor. -/
theorem border_resize_below_floor_noop_witness :
    demo_border.style = "border" ∧
    ((((2 : ℕ) = 0 ∨ (2 : ℕ) = 1) ∧ ("left" = "top" ∨ "left" = "bottom")) ∨
     (((2 : ℕ) = 2 ∨ (2 : ℕ) = 3) ∧ ("left" = "left" ∨ "left" = "right"))) ∧
    attempted_thickness (max 20 100) "left" 85 0 < 20 ∧
    bar_on_drag (resize_border demo_border 100) 2 "left" 85 0 =
      resize_border demo_border 100 :=
  ⟨rfl, Or.inr ⟨Or.inl rfl, Or.inl rfl⟩, by decide,
   border_resize_below_floor_noop demo_border 100 85 0 2 "left" rfl
     (Or.inr ⟨Or.inl rfl, Or.inl rfl⟩) (by decide)⟩

/-- C7 (amended): every resize tick on a committed border bar reports the
bar's post-tick dragged dimension to the controller — the new thickness when
a thickness edge is dragged, but the bar's LENGTH when a length edge is
dragged (the tick reports `winfo_width()` for `left`/`right` and
`winfo_height()` for `top`/`bottom`, whichever the edge resizes) — and the
controller synchronously rebuilds all four border surfaces at `max 20` of
that one reported value, so after the tick the border width equals it and
the active set is exactly four border bars all of that single shared
thickness, never independently sized. -/
theorem border_resize_propagates (c0 : Controller) (t dx dy : ℤ)
    (i : ℕ) (e : String)
    (hstyle : c0.style = "border")
    (hi : i = 0 ∨ i = 1 ∨ i = 2 ∨ i = 3)
    (he : e = "left" ∨ e = "right" ∨ e = "top" ∨ e = "bottom") :
    (bar_on_drag (resize_border c0 t) i e dx dy).borderWidth =
      max 20 (applied_thickness (border_drag_dim c0 (max 20 t) i e) e dx dy) ∧
    (bar_on_drag (resize_border c0 t) i e dx dy).bars =
      [ .bar c0.workX c0.workY c0.workW
          (max 20 (applied_thickness (border_drag_dim c0 (max 20 t) i e) e dx dy))
          "border"
          (some (adjust_brightness (kelvin_to_rgb c0.colorTemp) c0.brightness)),
        .bar c0.workX
          (c0.workY + c0.workH -
            max 20 (applied_thickness (border_drag_dim c0 (max 20 t) i e) e dx dy))
          c0.workW
          (max 20 (applied_thickness (border_drag_dim c0 (max 20 t) i e) e dx dy))
          "border"
          (some (adjust_brightness (kelvin_to_rgb c0.colorTemp) c0.brightness)),
        .bar c0.workX c0.workY
          (max 20 (applied_thickness (border_drag_dim c0 (max 20 t) i e) e dx dy))
          c0.workH "border"
          (some (adjust_brightness (kelvin_to_rgb c0.colorTemp) c0.brightness)),
        .bar (c0.workX + c0.workW -
            max 20 (applied_thickness (border_drag_dim c0 (max 20 t) i e) e dx dy))
          c0.workY
          (max 20 (applied_thickness (border_drag_dim c0 (max 20 t) i e) e dx dy))
          c0.workH "border"
          (some (adjust_brightness (kelvin_to_rgb c0.colorTemp) c0.brightness)) ] := by
  rw [resize_border_committed c0 t hstyle,
      bar_on_drag_borderState c0 (max 20 t) dx dy i e hi he]
  exact ⟨rfl, rfl⟩

/-- Witness for C7 (amended): committed width 100, left vertical bar
(index 2), right edge dragged by 50 px — a thickness edge, where the
reported dimension is the new thickness 150. -/
theorem border_resize_propagates_witness :
    demo_border.style = "border" ∧
    ((2 : ℕ) = 0 ∨ (2 : ℕ) = 1 ∨ (2 : ℕ) = 2 ∨ (2 : ℕ) = 3) ∧
    ("right" = "left" ∨ "right" = "right" ∨ "right" = "top" ∨
      "right" = "bottom") ∧
    ((bar_on_drag (resize_border demo_border 100) 2 "right" 50 0).borderWidth =
       max 20 (applied_thickness (border_drag_dim demo_border (max 20 100) 2 "right")
         "right" 50 0) ∧
     (bar_on_drag (resize_border demo_border 100) 2 "right" 50 0).bars =
       [ .bar demo_border.workX demo_border.workY demo_border.workW
           (max 20 (applied_thickness
             (border_drag_dim demo_border (max 20 100) 2 "right") "right" 50 0))
           "border"
           (some (adjust_brightness (kelvin_to_rgb demo_border.colorTemp)
             demo_border.brightness)),
         .bar demo_border.workX
           (demo_border.workY + demo_border.workH -
             max 20 (applied_thickness
               (border_drag_dim demo_border (max 20 100) 2 "right") "right" 50 0))
           demo_border.workW
           (max 20 (applied_thickness
             (border_drag_dim demo_border (max 20 100) 2 "right") "right" 50 0))
           "border"
           (some (adjust_brightness (kelvin_to_rgb demo_border.colorTemp)
             demo_border.brightness)),
         .bar demo_border.workX demo_border.workY
           (max 20 (applied_thickness
             (border_drag_dim demo_border (max 20 100) 2 "right") "right" 50 0))
           demo_border.workH "border"
           (some (adjust_brightness (kelvin_to_rgb demo_border.colorTemp)
             demo_border.brightness)),
         .bar (demo_border.workX + demo_border.workW -
             max 20 (applied_thickness
               (border_drag_dim demo_border (max 20 100) 2 "right") "right" 50 0))
           demo_border.workY
           (max 20 (applied_thickness
             (border_drag_dim demo_border (max 20 100) 2 "right") "right" 50 0))
           demo_border.workH "border"
           (some (adjust_brightness (kelvin_to_rgb demo_border.colorTemp)
             demo_border.brightness)) ]) :=
  ⟨rfl, Or.inr (Or.inr (Or.inl rfl)), Or.inr (Or.inl rfl),
   border_resize_propagates demo_border 100 50 0 2 "right" rfl
     (Or.inr (Or.inr (Or.inl rfl))) (Or.inr (Or.inl rfl))⟩

/-- Counterexample for C7 as stated: a resize tick need NOT report the
bar's thickness.  From the committed border state of width 100 on the
1920×1080 work area, dragging the LEFT edge of the TOP horizontal bar
(index 0, size 1920×100) by 20 px is a resize tick on a border surface,
but the code reports `winfo_width()` — the bar's length, 1900 — and
rebuilds all four bars at 1900; had the tick reported the bar's thickness
(its height, unchanged at 100) the border width would have stayed 100. -/
theorem border_resize_reports_length_counterexample :
    (bar_on_drag (resize_border demo_border 100) 0 "left" 20 0).borderWidth = 1900 ∧
    (bar_on_drag (resize_border demo_border 100) 0 "left" 20 0).borderWidth ≠ 100 := by
  rw [resize_border_committed demo_border 100 rfl,
      bar_on_drag_borderState demo_border (max 20 100) 20 0 0 "left"
        (Or.inl rfl) (Or.inl rfl)]
  exact ⟨by decide, by decide⟩

/-! ## C3: style switch border → sides -/

/-- The `"sides"` branch of `create_bars` (`light.pyw` lines 344-349). -/
theorem create_bars_sides (c : Controller) (h : c.style = "sides") :
    create_bars c =
      update_colors { c with bars :=
        [ .bar c.workX c.workY (pyintQ ((c.workW : ℚ) * 0.15)) c.workH
            "generic" none,
          .bar (c.workX + c.workW - pyintQ ((c.workW : ℚ) * 0.15)) c.workY
            (pyintQ ((c.workW : ℚ) * 0.15)) c.workH "generic" none ] } := by
  unfold create_bars close_bars
  dsimp only
  rw [h, if_neg (by decide), if_pos rfl]

/-- Switching to the `"sides"` style from any state: the new active set is
two freshly coloured `"generic"` bars at the work area's left and right
edges, each `int(work_w * 0.15)` wide. -/
theorem set_style_sides_bars (c' : Controller) :
    (set_style c' "sides").bars =
      [ .bar c'.workX c'.workY (pyintQ ((c'.workW : ℚ) * 0.15)) c'.workH "generic"
          (some (adjust_brightness (kelvin_to_rgb c'.colorTemp) c'.brightness)),
        .bar (c'.workX + c'.workW - pyintQ ((c'.workW : ℚ) * 0.15)) c'.workY
          (pyintQ ((c'.workW : ℚ) * 0.15)) c'.workH "generic"
          (some (adjust_brightness (kelvin_to_rgb c'.colorTemp) c'.brightness)) ] := by
  unfold set_style
  rw [create_bars_sides _ rfl]
  unfold update_colors
  dsimp only
  simp only [List.map_cons, List.map_nil, Surface.set_color]

/-- C3 (amended): after setting the style to `"border"` and then back to
`"sides"`, the active set is exactly 2 surfaces, each of width
`int(0.15 * work_w)` and positioned at the left and right work-area edges —
but both carry the role tag `"generic"` (the `"sides"` branch of
`create_bars` passes no role), not `"left"`/`"right"`. -/
theorem border_then_sides_two_generic_bars (c : Controller) :
    (set_style (set_style c "border") "sides").bars.length = 2 ∧
    (set_style (set_style c "border") "sides").bars =
      [ .bar c.workX c.workY (pyintQ ((c.workW : ℚ) * 0.15)) c.workH "generic"
          (some (adjust_brightness (kelvin_to_rgb c.colorTemp) c.brightness)),
        .bar (c.workX + c.workW - pyintQ ((c.workW : ℚ) * 0.15)) c.workY
          (pyintQ ((c.workW : ℚ) * 0.15)) c.workH "generic"
          (some (adjust_brightness (kelvin_to_rgb c.colorTemp) c.brightness)) ] := by
  have hbars : (set_style (set_style c "border") "sides").bars =
      [ .bar c.workX c.workY (pyintQ ((c.workW : ℚ) * 0.15)) c.workH "generic"
          (some (adjust_brightness (kelvin_to_rgb c.colorTemp) c.brightness)),
        .bar (c.workX + c.workW - pyintQ ((c.workW : ℚ) * 0.15)) c.workY
          (pyintQ ((c.workW : ℚ) * 0.15)) c.workH "generic"
          (some (adjust_brightness (kelvin_to_rgb c.colorTemp) c.brightness)) ] := by
    rw [set_style_sides_bars (set_style c "border")]
    obtain ⟨f1, f2, f3, f4, f5, f6, -, -, -⟩ := create_bars_fields
      { c with style := "border", store := save_setting c.store "BarStyle" "border" }
    unfold set_style
    rw [f1, f2, f3, f4, f5, f6]
  exact ⟨by rw [hbars]; rfl, hbars⟩

/-- Counterexample for C3 as stated: after `"border"` then `"sides"` from the
startup state, the active set does NOT consist of surfaces with roles
`"left"` and `"right"` — both roles are `"generic"`. -/
theorem border_then_sides_roles_counterexample :
    c3_claim_check c3_demo = false := by
  rfl
